import Mathlib

/-!
Shallow embedding of `src/chat-system.js` (class `ChatSystem`), a client-side
polling chat widget, together with proofs about the properties stated in its
specification.

Modelling conventions:
* A message object received from the server (`msg` in `renderMessages`) is the
  structure `Msg` below, with the exact field names of the JSON contract.
* Browser/host services are made explicit: `Date.now`/`new Date(ts)` become
  integer epoch-millisecond parameters, `toLocaleDateString()` becomes an
  opaque string parameter, and the DOM is represented by the relevant fields
  of the widget state (input value, disabled flags, rendered view, visible
  transient error notices).
* The asynchronous control flow (`async`/`await`) is modelled operationally:
  each `await fetch(...)` splits a method into a synchronous prefix (a pure
  state transformer that also registers a pending network task) and a resume
  (a pure state transformer applied when the environment resolves the task).
  An inductive `Step` relation over these transformers gives the event-loop
  semantics; pending tasks may resolve in any order.
* Interval timers created by `setInterval` are tracked by identifier in
  `activeTimers` (all timers currently live in the host), while
  `pollingInterval` is the instance field of the same name.
-/

namespace ChatSystem

/-- A message as delivered by `GET {base}/messages` (fields `sender_id`,
`sender_name`, `message_text`, `sent_at`).  `sent_at` is kept as epoch
milliseconds, i.e. the numeric value of `new Date(msg.sent_at)`. -/
structure Msg where
  sender_id : Nat
  sender_name : String
  message_text : String
  sent_at : Int
deriving DecidableEq, Repr

/-! ## Renderer / sanitizer (`escapeHtml`, `formatTime`, `renderMessages`) -/

/-- How browser HTML serialization of a text node renders one character:
`&` becomes `&amp;`, `<` becomes `&lt;`, `>` becomes `&gt;`, everything
else is kept. -/
def escapeChar (c : Char) : String :=
  if c = '&' then "&amp;"
  else if c = '<' then "&lt;"
  else if c = '>' then "&gt;"
  else String.singleton c

/-- `escapeHtml(text)`: the source sets `div.textContent = text` and reads
back `div.innerHTML`, i.e. the text-node serialization of `text`. -/
def escapeHtml (text : String) : String :=
  String.join (text.data.map escapeChar)

/-- `formatTime(timestamp)`.  `nowMs` and `sentMs` are the numeric values of
`new Date()` and `new Date(timestamp)`; `localeDate` stands for the host
call `date.toLocaleDateString()`.  JavaScript `Math.floor` on the quotient
of the subtraction is integer floor division, `Int.fdiv`. -/
def formatTime (nowMs sentMs : Int) (localeDate : String) : String :=
  let diffMs := nowMs - sentMs
  let diffMins := diffMs.fdiv 60000
  if diffMins < 1 then "Just now"
  else if diffMins < 60 then toString diffMins ++ "m ago"
  else
    let diffHours := diffMins.fdiv 60
    if diffHours < 24 then toString diffHours ++ "h ago"
    else localeDate

/-- The markup built for one message by the template literal inside
`renderMessages` (whitespace of the literal is immaterial and omitted).
`sender_name` passes through `escapeHtml`; `message_text` is interpolated
verbatim. -/
def renderMessageHtml (nowMs : Int) (localeDate : String) (currentUserId : Nat)
    (msg : Msg) : String :=
  let messageClass :=
    if msg.sender_id = currentUserId then "chat-message-sent"
    else "chat-message-received"
  "<div class=\"chat-message " ++ messageClass ++ "\">" ++
    "<div class=\"chat-message-header\">" ++
      "<span class=\"chat-message-sender\">" ++ escapeHtml msg.sender_name ++ "</span>" ++
      "<span class=\"chat-message-time\">" ++ formatTime nowMs msg.sent_at localeDate ++ "</span>" ++
    "</div>" ++
    "<div class=\"chat-message-content\">" ++ msg.message_text ++ "</div>" ++
  "</div>"

/-- The empty-state placeholder markup assigned by `renderMessages` when the
collection is empty. -/
def emptyStateHtml : String :=
  "<div class=\"chat-empty\"><i class=\"fas fa-comments\"></i><p>No messages yet. Start the conversation!</p></div>"

/-- `renderMessages()`: the string assigned to `messagesContainer.innerHTML`
(placeholder when `messages.length === 0`, else `messages.map(...).join('')`). -/
def renderMessagesHtml (nowMs : Int) (localeDate : String) (currentUserId : Nat)
    (messages : List Msg) : String :=
  if messages.length = 0 then emptyStateHtml
  else String.join (messages.map (renderMessageHtml nowMs localeDate currentUserId))

/-- `pat` occurs as a contiguous substring of `s` (on the underlying
character lists). -/
def containsSub (s pat : String) : Bool :=
  decide (pat.data <:+: s.data)

/-! ## Send validation helpers (`sendMessage` prologue) -/

/-- The whitespace class stripped by JavaScript `String.prototype.trim`:
WhiteSpace (tab, VT, FF, space, NBSP, ZWNBSP and the Unicode `Zs` spaces)
plus LineTerminator (LF, CR, LS, PS). -/
def jsWhitespace (c : Char) : Bool :=
  c.toNat = 0x9 || c.toNat = 0xA || c.toNat = 0xB || c.toNat = 0xC ||
  c.toNat = 0xD || c.toNat = 0x20 || c.toNat = 0xA0 || c.toNat = 0x1680 ||
  (0x2000 ≤ c.toNat && c.toNat ≤ 0x200A) || c.toNat = 0x2028 ||
  c.toNat = 0x2029 || c.toNat = 0x202F || c.toNat = 0x205F ||
  c.toNat = 0x3000 || c.toNat = 0xFEFF

/-- JavaScript `text.trim()`: removes leading and trailing `jsWhitespace`. -/
def jsTrim (s : String) : String :=
  ⟨((s.data.dropWhile jsWhitespace).reverse.dropWhile jsWhitespace).reverse⟩

/-- JavaScript `String.length`: the number of UTF-16 code units (characters
above U+FFFF count twice). -/
def jsLength (s : String) : Nat :=
  s.data.foldl (fun n c => n + (if c.toNat < 0x10000 then 1 else 2)) 0

/-- The transient notice raised by `sendMessage` for over-long input:
`Message is too long. Maximum N characters.` with `N` the configured
maximum. -/
def tooLongNotice (maxLen : Nat) : String :=
  "Message is too long. Maximum " ++ toString maxLen ++ " characters."

/-- The transient notice raised when `loadMessages` fails. -/
def loadErrorNotice : String := "Failed to load messages. Please try again."

/-- The transient notice raised when the `POST` in `sendMessage` fails. -/
def sendErrorNotice : String := "Failed to send message. Please try again."

/-! ## Widget state and event-loop semantics -/

/-- What `messagesContainer.innerHTML` currently shows: nothing rendered yet,
the empty-state placeholder, or a message list. -/
inductive View where
  | initial
  | placeholder
  | shown (messages : List Msg)
deriving DecidableEq, Repr

/-- The point in a suspended `async` method at which control resumes once a
pending `GET {base}/messages` fetch settles:
* `tickLoad`: the fetch was issued by a poll-tick `loadMessages()` call —
  nothing follows;
* `openResume`: the fetch was issued by the `await this.loadMessages()` in
  `open` — afterwards `open` runs `this.startPolling()` and focuses the input;
* `sendResume`: the fetch was issued by the `await this.loadMessages()` on
  the success path of `sendMessage` — afterwards the `finally` block
  re-enables the input and the send button and restores focus. -/
inductive Cont where
  | tickLoad
  | openResume
  | sendResume
deriving DecidableEq, Repr

/-- A network request in flight.  `fetchMsgs snapshot k` is a
`GET {base}/messages?offer_id=...` whose URL embedded the value of
`this.offerId` at issue time (`snapshot`); `k` is the continuation that runs
when it settles.  `postMsg text` is the `POST {base}/messages` issued by
`sendMessage` with body `message_text = text`. -/
inductive Pending where
  | fetchMsgs (snapshot : Option Nat) (k : Cont)
  | postMsg (text : String)
deriving DecidableEq, Repr

/-- Outcome of a pending fetch, chosen by the environment: a transport
error (the promise rejects), a non-2xx response (`!response.ok`), or a 2xx
response whose JSON body has `data.messages = payload` (`none` models a
missing/null/falsy `messages` field). -/
inductive FetchOutcome where
  | transportError
  | notOk
  | ok (payload : Option (List Msg))
deriving DecidableEq, Repr

/-- The state of one `ChatSystem` instance together with the host resources
it touches.  Instance fields keep their source names (`offerId`,
`currentUser`, `messages`, `pollingInterval`); `maxMessageLength` is
`this.options.maxMessageLength`.  Host-side ghost state: `activeTimers` is
the set of live interval timers (by identifier), `nextTimer` a fresh-id
supply, `pending` the network requests in flight, `view` the rendered
markup, `notices` the transient error toasts raised so far (most recent
first), `inputValue`/`inputDisabled`/`sendDisabled`/`focused` the DOM input
controls, `modalVisible` the modal's display state. -/
structure ChatState where
  offerId : Option Nat
  currentUser : Option Nat
  messages : List Msg
  pollingInterval : Option Nat
  maxMessageLength : Nat
  activeTimers : List Nat
  nextTimer : Nat
  pending : List Pending
  view : View
  notices : List String
  inputValue : String
  inputDisabled : Bool
  sendDisabled : Bool
  focused : Bool
  modalVisible : Bool
deriving DecidableEq, Repr

/-- The state after `new ChatSystem(modalId, options)` with a present modal:
no conversation, no messages, no timer, nothing in flight. -/
def initState (maxLen : Nat) : ChatState where
  offerId := none
  currentUser := none
  messages := []
  pollingInterval := none
  maxMessageLength := maxLen
  activeTimers := []
  nextTimer := 0
  pending := []
  view := View.initial
  notices := []
  inputValue := ""
  inputDisabled := false
  sendDisabled := false
  focused := false
  modalVisible := false

/-- `stopPolling()`: `if (this.pollingInterval) { clearInterval(...);
this.pollingInterval = null; }`.  `clearInterval` removes the timer from the
live set. -/
def stopPolling (s : ChatState) : ChatState :=
  match s.pollingInterval with
  | some t =>
      { s with activeTimers := s.activeTimers.erase t, pollingInterval := none }
  | none => s

/-- `startPolling()`: `this.stopPolling()` then `this.pollingInterval =
setInterval(...)` — a fresh live timer whose handle is stored. -/
def startPolling (s : ChatState) : ChatState :=
  let s1 := stopPolling s
  { s1 with
      pollingInterval := some s1.nextTimer
      activeTimers := s1.nextTimer :: s1.activeTimers
      nextTimer := s1.nextTimer + 1 }

/-- `renderMessages()` as a state effect: records what the container shows
(the placeholder when `this.messages` is empty, else the message list). -/
def renderMessages (s : ChatState) : ChatState :=
  if s.messages.length = 0 then { s with view := View.placeholder }
  else { s with view := View.shown s.messages }

/-- The synchronous prefix of `open(offerId, currentUser, ...)` up to its
first suspension: sets `this.offerId` and `this.currentUser`, shows the
modal, and — entering `await this.loadMessages()` — issues the fetch whose
URL embeds the current `this.offerId`. -/
def openStart (s : ChatState) (offerId currentUser : Nat) : ChatState :=
  { s with
      offerId := some offerId
      currentUser := some currentUser
      modalVisible := true
      pending := s.pending ++ [Pending.fetchMsgs (some offerId) Cont.openResume] }

/-- `close()`: hides the modal, `stopPolling()`, `this.offerId = null`, and
clears the input value. -/
def close (s : ChatState) : ChatState :=
  let s1 := stopPolling { s with modalVisible := false }
  { s1 with offerId := none, inputValue := "" }

/-- `destroy()`: `this.stopPolling(); this.close();`. -/
def destroy (s : ChatState) : ChatState :=
  close (stopPolling s)

/-- The resume of `loadMessages` when its fetch settles with `out`, followed
by the caller's continuation `k`.  On `ok` the body is read and
`this.messages = data.messages || []` then `renderMessages()`; on a
transport error or `!response.ok` the `catch` block shows the load-error
notice.  Note the handler never consults the conversation the fetch was
issued for.  Afterwards: `openResume` runs `startPolling()` and focuses the
input; `sendResume` runs the `finally` re-enable/focus; `tickLoad` does
nothing more. -/
def loadMessagesResolve (s : ChatState) (out : FetchOutcome) (k : Cont) : ChatState :=
  let s1 :=
    match out with
    | FetchOutcome.ok payload =>
        renderMessages { s with messages := payload.getD [] }
    | _ => { s with notices := loadErrorNotice :: s.notices }
  match k with
  | Cont.tickLoad => s1
  | Cont.openResume => { startPolling s1 with focused := true }
  | Cont.sendResume =>
      { s1 with inputDisabled := false, sendDisabled := false, focused := true }

/-- The synchronous prefix of `sendMessage()` up to its first suspension:
trims the input; an empty result returns silently; an over-long result shows
the too-long notice and returns; otherwise the input and button are disabled
and the `POST` is issued. -/
def sendMessageStart (s : ChatState) : ChatState :=
  let messageText := jsTrim s.inputValue
  if messageText = "" then s
  else if s.maxMessageLength < jsLength messageText then
    { s with notices := tooLongNotice s.maxMessageLength :: s.notices }
  else
    { s with
        inputDisabled := true
        sendDisabled := true
        pending := s.pending ++ [Pending.postMsg messageText] }

/-- The resume of `sendMessage` when its `POST` settles.  Success
(`ok = true`): the input is cleared and — entering
`await this.loadMessages()` — a reload fetch is issued (the `finally` block
runs only when that reload finishes, via `Cont.sendResume`).  Failure: the
send-error notice is shown and the `finally` block re-enables the controls
and restores focus at once. -/
def sendMessageResolve (s : ChatState) (ok : Bool) : ChatState :=
  if ok then
    { s with
        inputValue := ""
        pending := s.pending ++ [Pending.fetchMsgs s.offerId Cont.sendResume] }
  else
    { s with
        notices := sendErrorNotice :: s.notices
        inputDisabled := false
        sendDisabled := false
        focused := true }

/-- Removing the `i`-th pending request once the environment settles it. -/
def settle (s : ChatState) (i : Nat) : ChatState :=
  { s with pending := s.pending.eraseIdx i }

/-- One event-loop step of the widget and its environment.  User events
(`openCall`, `closeCall`, `destroyCall`, `sendCall`, typing), poll-timer
ticks, and settlement of any pending network request (in any order, one at
a time — the scheduling model is single-threaded and cooperative). -/
inductive Step : ChatState → ChatState → Prop where
  | openCall (s : ChatState) (offerId currentUser : Nat) :
      Step s (openStart s offerId currentUser)
  | closeCall (s : ChatState) :
      Step s (close s)
  | destroyCall (s : ChatState) :
      Step s (destroy s)
  | typeInput (s : ChatState) (v : String) (h : s.inputDisabled = false) :
      Step s { s with inputValue := v }
  | sendCall (s : ChatState) :
      Step s (sendMessageStart s)
  | tick (s : ChatState) (t : Nat) (ht : t ∈ s.activeTimers) :
      Step s { s with pending := s.pending ++ [Pending.fetchMsgs s.offerId Cont.tickLoad] }
  | fetchSettled (s : ChatState) (i : Nat) (snapshot : Option Nat) (k : Cont)
      (out : FetchOutcome)
      (h : s.pending.get? i = some (Pending.fetchMsgs snapshot k)) :
      Step s (loadMessagesResolve (settle s i) out k)
  | postSettled (s : ChatState) (i : Nat) (text : String) (ok : Bool)
      (h : s.pending.get? i = some (Pending.postMsg text)) :
      Step s (sendMessageResolve (settle s i) ok)
  | startPollingCall (s : ChatState) :
      Step s (startPolling s)
  | stopPollingCall (s : ChatState) :
      Step s (stopPolling s)

/-- States reachable from a freshly constructed widget. -/
def Reachable (maxLen : Nat) (s : ChatState) : Prop :=
  Relation.ReflTransGen Step (initState maxLen) s

/-! ### Concrete states and execution traces used below -/

/-- A hostile message: its `message_text` contains markup-significant
characters. -/
def mallory : Msg :=
  { sender_id := 2, sender_name := "Mallory",
    message_text := "<script>alert(1)</script>", sent_at := 0 }

/-- A message fetched for conversation 1 before a switch to conversation 2. -/
def msgOld : Msg :=
  { sender_id := 5, sender_name := "alice",
    message_text := "old conversation message", sent_at := 0 }

/-- A message fetched for conversation 2 after the switch. -/
def msgNew : Msg :=
  { sender_id := 6, sender_name := "bob",
    message_text := "new conversation message", sent_at := 0 }

/-- Trace for the open/close interleaving: `open(1, ...)` runs its
synchronous prefix (the initial `loadMessages` fetch goes out). -/
def c3s1 : ChatState := openStart (initState 1000) 1 7

/-- ... the user calls `close()` while that initial fetch is in flight ... -/
def c3s2 : ChatState := close c3s1

/-- ... the fetch then settles and `open` resumes: `startPolling()` runs. -/
def c3s3 : ChatState :=
  loadMessagesResolve (settle c3s2 0) (FetchOutcome.ok (some [])) Cont.openResume

/-- Trace for the conversation switch: `open(1, ...)` issues its initial
fetch ... -/
def c2s1 : ChatState := openStart (initState 1000) 1 7

/-- ... which settles with conversation 1's messages; polling starts. -/
def c2s2 : ChatState :=
  loadMessagesResolve (settle c2s1 0) (FetchOutcome.ok (some [msgOld])) Cont.openResume

/-- ... a poll tick fires: a fetch for conversation 1 goes out ... -/
def c2s3 : ChatState :=
  { c2s2 with pending := c2s2.pending ++ [Pending.fetchMsgs c2s2.offerId Cont.tickLoad] }

/-- ... the user switches to conversation 2 while that fetch is in
flight ... -/
def c2s4 : ChatState := openStart c2s3 2 7

/-- ... conversation 2's initial fetch settles first (messages `[msgNew]`
rendered, polling restarted) ... -/
def c2s5 : ChatState :=
  loadMessagesResolve (settle c2s4 1) (FetchOutcome.ok (some [msgNew])) Cont.openResume

/-- ... and finally the stale conversation-1 fetch settles and its payload
is applied to the view. -/
def c2s6 : ChatState :=
  loadMessagesResolve (settle c2s5 0) (FetchOutcome.ok (some [msgOld])) Cont.tickLoad

/-- Trace for `close` and the Message Collection: `open(3, ...)` ... -/
def c8s1 : ChatState := openStart (initState 1000) 3 7

/-- ... the initial fetch settles with one message ... -/
def c8s2 : ChatState :=
  loadMessagesResolve (settle c8s1 0) (FetchOutcome.ok (some [msgOld])) Cont.openResume

/-- ... and the user closes the conversation. -/
def c8s3 : ChatState := close c8s2

/-- A fresh widget whose input holds only whitespace. -/
def blankInputState : ChatState := { initState 1000 with inputValue := "   " }

/-- A fresh widget whose input holds a sendable draft. -/
def draftInputState : ChatState := { initState 1000 with inputValue := "hello" }

/-- The timers live in the host are exactly the one stored in
`this.pollingInterval` (if any): every `setInterval` the widget performs is
immediately stored, and the stored timer is cleared before being replaced
or dropped. -/
def timersTracked (s : ChatState) : Prop :=
  s.activeTimers = s.pollingInterval.toList

theorem timersTracked_stopPolling {s : ChatState} (h : timersTracked s) :
    timersTracked (stopPolling s) := by
  unfold timersTracked at *
  unfold stopPolling
  cases hp : s.pollingInterval with
  | none => simpa [hp] using h
  | some t => simp [hp, h, List.erase]

theorem timersTracked_startPolling {s : ChatState} (h : timersTracked s) :
    timersTracked (startPolling s) := by
  have h1 := timersTracked_stopPolling h
  unfold timersTracked at *
  unfold startPolling
  have h2 : (stopPolling s).pollingInterval = none := by
    unfold stopPolling
    cases hp : s.pollingInterval <;> simp [hp]
  simp [h1, h2]

theorem timersTracked_close {s : ChatState} (h : timersTracked s) :
    timersTracked (close s) := by
  have h1 : timersTracked (stopPolling { s with modalVisible := false }) :=
    timersTracked_stopPolling (by simpa [timersTracked] using h)
  unfold timersTracked at *
  simpa [close] using h1

theorem timersTracked_loadMessagesResolve {s : ChatState} (out : FetchOutcome)
    (k : Cont) (h : timersTracked s) :
    timersTracked (loadMessagesResolve s out k) := by
  have hbody : ∀ s1 : ChatState, timersTracked s1 →
      timersTracked (match out with
        | FetchOutcome.ok payload =>
            renderMessages { s1 with messages := payload.getD [] }
        | _ => { s1 with notices := loadErrorNotice :: s1.notices }) := by
    intro s1 h1
    cases out with
    | ok payload =>
        unfold timersTracked renderMessages at *
        by_cases he : (payload.getD []).length = 0 <;> simp [he, h1]
    | transportError => simpa [timersTracked] using h1
    | notOk => simpa [timersTracked] using h1
  have h1 := hbody s h
  cases k with
  | tickLoad => simpa [loadMessagesResolve] using h1
  | openResume =>
      have h2 := timersTracked_startPolling h1
      unfold timersTracked at *
      simpa [loadMessagesResolve] using h2
  | sendResume =>
      unfold timersTracked at *
      simpa [loadMessagesResolve] using h1

theorem timersTracked_step {s s1 : ChatState} (hst : Step s s1)
    (h : timersTracked s) : timersTracked s1 := by
  cases hst with
  | openCall offerId currentUser => simpa [timersTracked, openStart] using h
  | closeCall => exact timersTracked_close h
  | destroyCall => exact timersTracked_close (timersTracked_stopPolling h)
  | typeInput v hd => simpa [timersTracked] using h
  | sendCall =>
      unfold timersTracked sendMessageStart at *
      by_cases h1 : jsTrim s.inputValue = "" <;>
        by_cases h2 : s.maxMessageLength < jsLength (jsTrim s.inputValue) <;>
          simp [h1, h2, h]
  | tick t ht => simpa [timersTracked] using h
  | fetchSettled i snapshot k out hp =>
      exact timersTracked_loadMessagesResolve out k (by simpa [timersTracked, settle] using h)
  | postSettled i text ok hp =>
      unfold timersTracked sendMessageResolve settle at *
      cases ok <;> simp [h]
  | startPollingCall => exact timersTracked_startPolling h
  | stopPollingCall => exact timersTracked_stopPolling h

theorem timersTracked_reachable {maxLen : Nat} {s : ChatState}
    (h : Reachable maxLen s) : timersTracked s := by
  induction h with
  | refl => simp [timersTracked, initState, Option.toList]
  | tail _ hstep ih => exact timersTracked_step hstep ih

/-! ## Helper lemmas on the renderer -/

theorem escapeChar_no_markup (a : Char) :
    ∀ c ∈ (escapeChar a).data, c ≠ '<' ∧ c ≠ '>' := by
  intro c hc
  unfold escapeChar at hc
  by_cases h1 : a = '&'
  · simp [h1] at hc
    rcases hc with rfl | rfl | rfl | rfl | rfl <;> exact ⟨by decide, by decide⟩
  · by_cases h2 : a = '<'
    · simp [h1, h2] at hc
      rcases hc with rfl | rfl | rfl | rfl <;> exact ⟨by decide, by decide⟩
    · by_cases h3 : a = '>'
      · simp [h1, h2, h3] at hc
        rcases hc with rfl | rfl | rfl | rfl <;> exact ⟨by decide, by decide⟩
      · simp [h1, h2, h3, String.singleton] at hc
        subst hc
        exact ⟨h2, h3⟩

theorem escapeHtml_no_markup (t : String) :
    ∀ c ∈ (escapeHtml t).data, c ≠ '<' ∧ c ≠ '>' := by
  intro c hc
  unfold escapeHtml at hc
  rw [String.join_eq] at hc
  simp only [List.map_map, List.mem_flatten, List.mem_map] at hc
  obtain ⟨l, ⟨a, _, rfl⟩, hcl⟩ := hc
  exact escapeChar_no_markup a c hcl

/-! ## Claim C1 -/

/-- C1, as stated, is false of the code: `renderMessages` interpolates
`msg.message_text` into the markup without `escapeHtml` (only
`sender_name` is escaped), so a text of `<script>alert(1)</script>`
reaches `messagesContainer.innerHTML` verbatim, where `<script>` opens a
tag — it is markup structure, not opaque data.  Had the text been escaped
(last two conjuncts), no `<` would have survived. -/
theorem script_text_reaches_markup :
    mallory.message_text = "<script>alert(1)</script>" ∧
    containsSub (renderMessagesHtml 0 "1/1/2026" 1 [mallory]) "<script>alert(1)</script>" = true ∧
    containsSub (escapeHtml mallory.message_text) "<script>" = false ∧
    containsSub (escapeHtml mallory.message_text) "<" = false := by
  refine ⟨rfl, ?_, by decide, by decide⟩
  unfold containsSub
  rw [decide_eq_true_eq]
  unfold renderMessagesHtml renderMessageHtml
  rw [if_neg (by simp)]
  simp only [List.map, String.join_eq, List.map_cons, List.map_nil, List.flatten,
    String.data_append, List.append_nil, List.append_assoc]
  refine ⟨("<div class=\"chat-message " ++
      (if mallory.sender_id = 1 then "chat-message-sent" else "chat-message-received") ++
      "\">" ++ "<div class=\"chat-message-header\">" ++
      "<span class=\"chat-message-sender\">" ++ escapeHtml mallory.sender_name ++ "</span>" ++
      "<span class=\"chat-message-time\">" ++ formatTime 0 mallory.sent_at "1/1/2026" ++ "</span>" ++
      "</div>" ++ "<div class=\"chat-message-content\">").data,
    ("</div>" ++ "</div>").data, ?_⟩
  simp only [String.data_append, List.append_assoc]
  rfl

/-- C1 (amended): rendering escapes `sender_displayName` — no
markup-significant character of it survives `escapeHtml` — but inserts
`message_text` verbatim into the produced markup; the renderer itself does
not treat message text as opaque data (it relies on text being sanitized
upstream). -/
theorem render_escapes_sender_not_text (nowMs : Int) (localeDate : String)
    (uid : Nat) (m : Msg) :
    containsSub (renderMessagesHtml nowMs localeDate uid [m]) m.message_text = true ∧
    containsSub (renderMessageHtml nowMs localeDate uid m) (escapeHtml m.sender_name) = true ∧
    (∀ c ∈ (escapeHtml m.sender_name).data, c ≠ '<' ∧ c ≠ '>') := by
  refine ⟨?_, ?_, escapeHtml_no_markup m.sender_name⟩
  · unfold containsSub
    rw [decide_eq_true_eq]
    unfold renderMessagesHtml renderMessageHtml
    rw [if_neg (by simp)]
    simp only [List.map, String.join_eq, List.map_cons, List.map_nil, List.flatten,
      String.data_append, List.append_nil, List.append_assoc]
    refine ⟨("<div class=\"chat-message " ++
        (if m.sender_id = uid then "chat-message-sent" else "chat-message-received") ++
        "\">" ++ "<div class=\"chat-message-header\">" ++
        "<span class=\"chat-message-sender\">" ++ escapeHtml m.sender_name ++ "</span>" ++
        "<span class=\"chat-message-time\">" ++ formatTime nowMs m.sent_at localeDate ++ "</span>" ++
        "</div>" ++ "<div class=\"chat-message-content\">").data,
      ("</div>" ++ "</div>").data, ?_⟩
    simp only [String.data_append, List.append_assoc]
  · unfold containsSub
    rw [decide_eq_true_eq]
    unfold renderMessageHtml
    simp only [String.data_append, List.append_assoc]
    refine ⟨("<div class=\"chat-message " ++
        (if m.sender_id = uid then "chat-message-sent" else "chat-message-received") ++
        "\">" ++ "<div class=\"chat-message-header\">" ++
        "<span class=\"chat-message-sender\">").data,
      ("</span>" ++ "<span class=\"chat-message-time\">" ++
        formatTime nowMs m.sent_at localeDate ++ "</span>" ++ "</div>" ++
        "<div class=\"chat-message-content\">" ++ m.message_text ++ "</div>" ++ "</div>").data, ?_⟩
    simp only [String.data_append, List.append_assoc]

/-- C1 witness: the amended theorem applied to the hostile message; `'M'`
of the escaped sender name satisfies the membership hypothesis. -/
theorem render_escapes_sender_not_text_witness :
    ('M' ∈ (escapeHtml mallory.sender_name).data) ∧ ('M' ≠ '<' ∧ 'M' ≠ '>') :=
  ⟨by decide, (render_escapes_sender_not_text 0 "1/1/2026" 1 mallory).2.2 'M' (by decide)⟩

/-! ## Claim C9 -/

/-- C9: with `sentAt` in the past, the relative time label is `Just now`
under one minute, `<n>m ago` with `n` the integer floor of the elapsed
minutes under 60 minutes, `<n>h ago` with `n` the integer floor of the
elapsed hours under 24 hours, and the localized calendar date string
otherwise.  (`/` on `ℤ` is `Int.ediv`, which is the floor for a
non-negative difference.) -/
theorem formatTime_spec (nowMs sentMs : Int) (localeDate : String)
    (hpast : sentMs ≤ nowMs) :
    (nowMs - sentMs < 60000 → formatTime nowMs sentMs localeDate = "Just now") ∧
    (60000 ≤ nowMs - sentMs → nowMs - sentMs < 3600000 →
      formatTime nowMs sentMs localeDate = toString ((nowMs - sentMs) / 60000) ++ "m ago") ∧
    (3600000 ≤ nowMs - sentMs → nowMs - sentMs < 86400000 →
      formatTime nowMs sentMs localeDate = toString ((nowMs - sentMs) / 3600000) ++ "h ago") ∧
    (86400000 ≤ nowMs - sentMs → formatTime nowMs sentMs localeDate = localeDate) := by
  unfold formatTime
  dsimp only
  rw [Int.fdiv_eq_ediv _ (by norm_num : (0:ℤ) ≤ 60000)]
  rw [Int.fdiv_eq_ediv _ (by norm_num : (0:ℤ) ≤ 60)]
  refine ⟨?_, ?_, ?_, ?_⟩
  · intro h1; rw [if_pos (by omega)]
  · intro h1 h2
    rw [if_neg (by omega), if_pos (by omega)]
  · intro h1 h2
    rw [if_neg (by omega), if_neg (by omega), if_pos (by omega)]
    congr 2
    omega
  · intro h1
    rw [if_neg (by omega), if_neg (by omega), if_neg (by omega)]

/-- C9 witness: 90 minutes of elapsed time floors to `1h ago` (the
spec's own flooring example), via the theorem at `now = 5400000`,
`sentAt = 0`. -/
theorem formatTime_spec_witness :
    formatTime 5400000 0 "1/1/2026" = "1h ago" := by
  have h := (formatTime_spec 5400000 0 "1/1/2026" (by norm_num)).2.2.1
    (by norm_num) (by norm_num)
  simpa using h

/-! ## Claim C4 -/

/-- C4: `sendMessage` with whitespace-only input returns silently (state
unchanged, no request, no notice); with an over-long trimmed input it only
raises the too-long notice, which cites the configured maximum, and issues
no request; a `POST` is issued exactly when the trimmed input is non-empty
and within the configured maximum. -/
theorem sendMessage_validation (s : ChatState) :
    (jsTrim s.inputValue = "" → sendMessageStart s = s) ∧
    (jsTrim s.inputValue ≠ "" → s.maxMessageLength < jsLength (jsTrim s.inputValue) →
      sendMessageStart s = { s with notices := tooLongNotice s.maxMessageLength :: s.notices } ∧
      containsSub (tooLongNotice s.maxMessageLength) (toString s.maxMessageLength) = true) ∧
    ((sendMessageStart s).pending ≠ s.pending ↔
      jsTrim s.inputValue ≠ "" ∧ jsLength (jsTrim s.inputValue) ≤ s.maxMessageLength) ∧
    (jsTrim s.inputValue ≠ "" → jsLength (jsTrim s.inputValue) ≤ s.maxMessageLength →
      (sendMessageStart s).pending = s.pending ++ [Pending.postMsg (jsTrim s.inputValue)]) := by
  refine ⟨?_, ?_, ?_, ?_⟩
  · intro h; simp [sendMessageStart, h]
  · intro h1 h2
    constructor
    · simp [sendMessageStart, h1, h2]
    · unfold containsSub
      rw [decide_eq_true_eq]
      exact ⟨"Message is too long. Maximum ".data, " characters.".data,
        by simp [tooLongNotice, String.data_append]⟩
  · constructor
    · intro hne
      by_cases h1 : jsTrim s.inputValue = ""
      · simp [sendMessageStart, h1] at hne
      · by_cases h2 : s.maxMessageLength < jsLength (jsTrim s.inputValue)
        · simp [sendMessageStart, h1, h2] at hne
        · exact ⟨h1, by omega⟩
    · rintro ⟨h1, h2⟩
      simp [sendMessageStart, h1, Nat.not_lt.mpr h2]
  · intro h1 h2
    simp [sendMessageStart, h1, Nat.not_lt.mpr h2]

/-- C4 witness: a whitespace-only draft trims to empty and `sendMessage`
leaves the widget exactly as it was. -/
theorem sendMessage_validation_witness :
    jsTrim blankInputState.inputValue = "" ∧ sendMessageStart blankInputState = blankInputState :=
  ⟨by decide, (sendMessage_validation blankInputState).1 (by decide)⟩

/-! ## Claim C5 -/

/-- C5: when a refresh fails (transport error or non-2xx response) the
resume leaves everything except the notice list exactly unchanged — in
particular the Message Collection, the rendered view, and the poll timer
state (so polling continues on the next tick) — and raises the transient
load-error notice; the `catch` makes the resume total, so no exception
propagates.  The first conjunct is the full-state equation for a poll-tick
refresh; the last two cover the refreshes awaited inside `open` and
`sendMessage` as well. -/
theorem loadMessages_failure (s : ChatState) (out : FetchOutcome)
    (hfail : out = FetchOutcome.transportError ∨ out = FetchOutcome.notOk) :
    loadMessagesResolve s out Cont.tickLoad = { s with notices := loadErrorNotice :: s.notices } ∧
    (∀ k, (loadMessagesResolve s out k).messages = s.messages) ∧
    (∀ k, (loadMessagesResolve s out k).notices = loadErrorNotice :: s.notices) := by
  rcases hfail with rfl | rfl <;>
    refine ⟨by simp [loadMessagesResolve], ?_, ?_⟩ <;>
      intro k <;> cases k <;>
        simp [loadMessagesResolve, startPolling, stopPolling] <;>
          cases hp : s.pollingInterval <;> simp [hp]

/-- C5 witness: a transport error on a fresh widget leaves it unchanged
but for the new notice. -/
theorem loadMessages_failure_witness :
    loadMessagesResolve (initState 1000) FetchOutcome.transportError Cont.tickLoad =
      { initState 1000 with notices := [loadErrorNotice] } :=
  (loadMessages_failure (initState 1000) FetchOutcome.transportError (Or.inl rfl)).1

/-! ## Claim C10 -/

/-- C10: a 2xx refresh whose body lacks a `messages` array is a success:
`data.messages || []` yields the empty collection, which replaces the
Message Collection wholesale; the empty-state placeholder is rendered and
no notice is raised (first conjunct is a full-state equation).  The second
conjunct: the markup rendered for an empty collection is the placeholder. -/
theorem loadMessages_missing_array (s : ChatState) :
    loadMessagesResolve s (FetchOutcome.ok none) Cont.tickLoad =
      { s with messages := [], view := View.placeholder } ∧
    (∀ (nowMs : Int) (localeDate : String) (uid : Nat),
      renderMessagesHtml nowMs localeDate uid [] = emptyStateHtml) := by
  constructor
  · simp [loadMessagesResolve, renderMessages]
  · intro _ _ _; simp [renderMessagesHtml]

/-! ## Claim C6 -/

/-- C6: once validation passes, the input control and the send affordance
are disabled while the `POST` is outstanding (the draft still holding the
original text); on failure the resume re-enables both, restores focus,
raises the send-error notice and leaves the draft untouched; on success
the input is cleared and a refresh is issued, and when that refresh
settles (either way) the `finally` block re-enables both controls and
restores focus. -/
theorem sendMessage_lifecycle (s : ChatState)
    (h1 : jsTrim s.inputValue ≠ "")
    (h2 : jsLength (jsTrim s.inputValue) ≤ s.maxMessageLength) :
    ((sendMessageStart s).inputDisabled = true ∧ (sendMessageStart s).sendDisabled = true ∧
      (sendMessageStart s).inputValue = s.inputValue) ∧
    (∀ w : ChatState,
      (sendMessageResolve w false).inputValue = w.inputValue ∧
      (sendMessageResolve w false).inputDisabled = false ∧
      (sendMessageResolve w false).sendDisabled = false ∧
      (sendMessageResolve w false).focused = true ∧
      (sendMessageResolve w false).notices = sendErrorNotice :: w.notices) ∧
    (∀ w : ChatState,
      (sendMessageResolve w true).inputValue = "" ∧
      (sendMessageResolve w true).pending =
        w.pending ++ [Pending.fetchMsgs w.offerId Cont.sendResume]) ∧
    (∀ (w : ChatState) (out : FetchOutcome),
      (loadMessagesResolve w out Cont.sendResume).inputDisabled = false ∧
      (loadMessagesResolve w out Cont.sendResume).sendDisabled = false ∧
      (loadMessagesResolve w out Cont.sendResume).focused = true) := by
  refine ⟨?_, ?_, ?_, ?_⟩
  · simp [sendMessageStart, h1, Nat.not_lt.mpr h2]
  · intro w; simp [sendMessageResolve]
  · intro w; simp [sendMessageResolve]
  · intro w out
    cases out <;> simp [loadMessagesResolve, renderMessages]

/-- C6 witness: the theorem at a widget holding the draft `hello`: the
controls are disabled while the send is outstanding. -/
theorem sendMessage_lifecycle_witness :
    jsTrim draftInputState.inputValue ≠ "" ∧
    (sendMessageStart draftInputState).inputDisabled = true :=
  ⟨by decide, (sendMessage_lifecycle draftInputState (by decide) (by decide)).1.1⟩

/-! ## Claim C7 -/

theorem startPolling_singleton {w : ChatState} (hw : timersTracked w) :
    (startPolling w).activeTimers.length = 1 := by
  have h1 := timersTracked_startPolling hw
  have h2 : (startPolling w).pollingInterval = some (stopPolling w).nextTimer := by
    simp [startPolling]
  rw [timersTracked] at h1
  rw [h1, h2]
  simp [Option.toList]

theorem startPolling_iterate {w : ChatState} (hw : timersTracked w) :
    ∀ n : Nat, (startPolling^[n + 1] w).activeTimers.length = 1 := by
  intro n
  induction n generalizing w with
  | zero => simpa using startPolling_singleton hw
  | succ m ih =>
      rw [Function.iterate_succ_apply]
      exact ih (timersTracked_startPolling hw)

/-- C7: in every reachable state the live interval timers are exactly the
one stored in `pollingInterval`, so there is at most one; any number of
consecutive `startPolling()` calls leave exactly one live timer (the
refresh rate is never doubled); and `stopPolling()` with no timer stored
is a no-op, not an error. -/
theorem single_poll_timer (maxLen : Nat) (s : ChatState) (h : Reachable maxLen s) :
    s.activeTimers.length ≤ 1 ∧
    (∀ n : Nat, (startPolling^[n + 1] s).activeTimers.length = 1) ∧
    (s.pollingInterval = none → stopPolling s = s) := by
  have hinv := timersTracked_reachable h
  refine ⟨?_, ?_, ?_⟩
  · rw [timersTracked] at hinv
    rw [hinv]
    cases s.pollingInterval <;> simp [Option.toList]
  · exact startPolling_iterate hinv
  · intro h0; simp [stopPolling, h0]

/-- C7 witness: three consecutive `startPolling()` calls on a fresh widget
leave exactly one live timer. -/
theorem single_poll_timer_witness :
    (startPolling^[3] (initState 1000)).activeTimers.length = 1 :=
  (single_poll_timer 1000 (initState 1000) Relation.ReflTransGen.refl).2.1 2

/-! ## Claim C3 -/

/-- C3 fails on the code: `open(1, ...)` issues its initial fetch; the
user calls `close()` while it is in flight (so the timer field is empty
and the modal hidden); when the fetch settles, `open`'s continuation runs
`this.startPolling()` unconditionally, leaving one live interval timer on
a closed widget (`offerId` is already `null`).  The trace is reachable in
the operational semantics, and its final state has a dangling timer. -/
theorem close_during_open_leaves_timer :
    Reachable 1000 c3s3 ∧
    c3s3.modalVisible = false ∧ c3s3.offerId = none ∧
    c3s3.pollingInterval = some 0 ∧ c3s3.activeTimers = [0] := by
  refine ⟨?_, by decide, by decide, by decide, by decide⟩
  exact Relation.ReflTransGen.head (Step.openCall (initState 1000) 1 7)
    (Relation.ReflTransGen.head (Step.closeCall c3s1)
      (Relation.ReflTransGen.head
        (Step.fetchSettled c3s2 0 (some 1) Cont.openResume
          (FetchOutcome.ok (some [])) (by decide))
        Relation.ReflTransGen.refl))

/-! ## Claim C2 -/

/-- C2 fails on the code.  Trace: `open(1, ...)` completes and polling
runs; a poll tick puts a conversation-1 fetch in flight; `open(2, ...)`
switches conversations (at that activation instant the old timer `0` is
still live — `startPolling` only runs after the new conversation's initial
load completes); conversation 2 loads and renders `[msgNew]`; then the
stale conversation-1 fetch settles and its payload `[msgOld]` is applied
and rendered, although `offerId` is `2` and the fetch was tagged
conversation `1` — nothing discards stale results. -/
theorem stale_fetch_overwrites_view :
    Reachable 1000 c2s6 ∧
    c2s4.offerId = some 2 ∧ c2s4.activeTimers = [0] ∧
    c2s4.pending.get? 0 = some (Pending.fetchMsgs (some 1) Cont.tickLoad) ∧
    c2s5.view = View.shown [msgNew] ∧
    c2s6.offerId = some 2 ∧ c2s6.messages = [msgOld] ∧
    c2s6.view = View.shown [msgOld] := by
  refine ⟨?_, by decide, by decide, by decide, by decide, by decide, by decide, by decide⟩
  exact Relation.ReflTransGen.head (Step.openCall (initState 1000) 1 7)
    (Relation.ReflTransGen.head
      (Step.fetchSettled c2s1 0 (some 1) Cont.openResume
        (FetchOutcome.ok (some [msgOld])) (by decide))
      (Relation.ReflTransGen.head (Step.tick c2s2 0 (by decide))
        (Relation.ReflTransGen.head (Step.openCall c2s3 2 7)
          (Relation.ReflTransGen.head
            (Step.fetchSettled c2s4 1 (some 2) Cont.openResume
              (FetchOutcome.ok (some [msgNew])) (by decide))
            (Relation.ReflTransGen.head
              (Step.fetchSettled c2s5 0 (some 1) Cont.tickLoad
                (FetchOutcome.ok (some [msgOld])) (by decide))
              Relation.ReflTransGen.refl)))))

/-- C2 (amended): `open` on a different conversation re-points the widget
at once, but the old conversation's timer stays live until the new initial
load completes (only then does `startPolling` clear it), and the resume of
a fetch that was issued for a conversation other than the currently active
one still replaces and renders the Message Collection with its payload —
in-flight results are never discarded. -/
theorem stale_fetch_applied (s : ChatState) (i : Nat) (snap : Option Nat)
    (ms : List Msg)
    (hp : s.pending.get? i = some (Pending.fetchMsgs snap Cont.tickLoad))
    (hstale : snap ≠ s.offerId) (hne : ms ≠ []) :
    (loadMessagesResolve (settle s i) (FetchOutcome.ok (some ms)) Cont.tickLoad).messages = ms ∧
    (loadMessagesResolve (settle s i) (FetchOutcome.ok (some ms)) Cont.tickLoad).view =
      View.shown ms ∧
    (∀ (k u : Nat), (openStart s k u).offerId = some k ∧
      (openStart s k u).activeTimers = s.activeTimers ∧
      (openStart s k u).pollingInterval = s.pollingInterval) := by
  have hlen : ms.length ≠ 0 := by
    intro h0
    exact hne (List.length_eq_zero.mp h0)
  refine ⟨?_, ?_, ?_⟩
  · simp [loadMessagesResolve, renderMessages, settle, hlen]
  · simp [loadMessagesResolve, renderMessages, settle, hlen]
  · intro k u; simp [openStart]

/-- C2 witness: the amended theorem at the trace state `c2s5`, whose
pending conversation-1 fetch is stale (`offerId` is `2`). -/
theorem stale_fetch_applied_witness :
    c2s5.pending.get? 0 = some (Pending.fetchMsgs (some 1) Cont.tickLoad) ∧
    (some 1 ≠ c2s5.offerId) ∧
    (loadMessagesResolve (settle c2s5 0) (FetchOutcome.ok (some [msgOld]))
      Cont.tickLoad).messages = [msgOld] :=
  ⟨by decide, by decide,
    (stale_fetch_applied c2s5 0 (some 1) [msgOld] (by decide) (by decide) (by decide)).1⟩

/-! ## Claim C8 -/

/-- C8 fails on the code: `close()` does not touch `this.messages`.  After
a conversation was opened and one message fetched, closing stops the
timer, clears `offerId` and the draft, and hides the modal — but the
Message Collection still holds the fetched message. -/
theorem close_keeps_messages :
    Reachable 1000 c8s3 ∧
    c8s3.offerId = none ∧ c8s3.pollingInterval = none ∧
    c8s3.inputValue = "" ∧ c8s3.modalVisible = false ∧
    c8s3.messages = [msgOld] ∧ c8s3.messages ≠ [] := by
  refine ⟨?_, by decide, by decide, by decide, by decide, by decide, by decide⟩
  exact Relation.ReflTransGen.head (Step.openCall (initState 1000) 3 7)
    (Relation.ReflTransGen.head
      (Step.fetchSettled c8s1 0 (some 3) Cont.openResume
        (FetchOutcome.ok (some [msgOld])) (by decide))
      (Relation.ReflTransGen.head (Step.closeCall c8s2)
        Relation.ReflTransGen.refl))

/-- C8 (amended): `close()` — idempotently, from any state whose live
timers are the tracked one — stops the poll timer, clears the conversation
identifier and the draft input and hides the modal, but does **not** clear
the Message Collection; likewise switching via `open` leaves the
collection in place until the new conversation's fetch replaces it. -/
theorem close_effects (s : ChatState) (hinv : timersTracked s) :
    (close s).pollingInterval = none ∧ (close s).activeTimers = [] ∧
    (close s).offerId = none ∧ (close s).inputValue = "" ∧
    (close s).modalVisible = false ∧
    (close s).messages = s.messages ∧
    close (close s) = close s ∧
    (∀ (k u : Nat), (openStart s k u).messages = s.messages) := by
  rw [timersTracked] at hinv
  refine ⟨?_, ?_, ?_, ?_, ?_, ?_, ?_, ?_⟩
  · cases hp : s.pollingInterval <;> simp [close, stopPolling, hp]
  · cases hp : s.pollingInterval with
    | none => simp [close, stopPolling, hp]; simpa [hp, Option.toList] using hinv
    | some t =>
        simp [close, stopPolling, hp]
        rw [show s.activeTimers = [t] by simpa [hp, Option.toList] using hinv]
        simp [List.erase]
  · cases hp : s.pollingInterval <;> simp [close, stopPolling, hp]
  · cases hp : s.pollingInterval <;> simp [close, stopPolling, hp]
  · cases hp : s.pollingInterval <;> simp [close, stopPolling, hp]
  · cases hp : s.pollingInterval <;> simp [close, stopPolling, hp]
  · cases hp : s.pollingInterval <;> simp [close, stopPolling, hp]
  · intro k u; simp [openStart]

/-- C8 witness: the amended theorem at the trace state `c8s2` (open
conversation, one fetched message, live tracked timer). -/
theorem close_effects_witness :
    timersTracked c8s2 ∧ (close c8s2).messages = c8s2.messages :=
  ⟨by rw [timersTracked]; decide, (close_effects c8s2 (by rw [timersTracked]; decide)).2.2.2.2.2.1⟩

end ChatSystem
